import Mathlib

/-!
# Verification of the Hidden-Service-Manager control-protocol client

Shallow embedding of `src/HiddenService.cpp` / `src/HiddenService.hpp`
(class `HiddenServiceManager`): configuration, manager state, the
line-oriented control-protocol reply reader (`sendCommand`), and the
lifecycle operations `connectControl`, `authenticate`, `addOnion`,
`delOnion`, `closeControl`, `setupHiddenService`, `teardownHiddenService`
and the deterministic stub identifier `makeDeterministicStubId`.

Machine I/O is made explicit: the byte stream arriving on the control
socket is a list of read-chunks (each a `List Char`; the end of the list
models end-of-stream, an empty chunk models `read()` returning `0`),
the cookie file is an optional byte list, and TCP connect outcomes are
an optional file descriptor.  Each operation additionally returns the
list of command strings it wrote to the socket, so that "sends no
command" is statable.
-/

namespace HiddenServiceManager

/-- Embeds `enum class AuthMode` from HiddenService.hpp. -/
inductive AuthMode
  | Cookie
  | Password
  | None
deriving DecidableEq, Repr

/-- Embeds `enum class PersistenceMode` from HiddenService.hpp. -/
inductive PersistenceMode
  | Ephemeral
  | ProvidedKey
deriving DecidableEq, Repr

/-- Embeds `struct Config` from HiddenService.hpp.  Ports are `Nat` standing for
`std::uint16_t`; `bootstrap_timeout` is kept in milliseconds. -/
structure Config where
  local_bind_ip : String := "127.0.0.1"
  local_service_port : Nat := 5000
  onion_virtual_port : Nat := 12345
  tor_control_host : String := "127.0.0.1"
  tor_control_port : Nat := 9051
  auth_mode : AuthMode := AuthMode.Cookie
  tor_cookie_path : String := "/run/tor/control.authcookie"
  tor_control_password : String := ""
  persistence_mode : PersistenceMode := PersistenceMode.Ephemeral
  provided_private_key_base64 : String := ""
  bootstrap_timeout_ms : Nat := 15000
  redact_secrets_in_logs : Bool := true
  enable_stub_mode : Bool := true
deriving DecidableEq, Repr

/-- The mutable fields of `HiddenServiceManager`: `control_fd_`,
`service_id_`, `private_key_`, `ready_`. -/
structure ManagerState where
  control_fd : Int := -1
  service_id : String := ""
  private_key : String := ""
  ready : Bool := false
deriving DecidableEq, Repr

/-! ## Reply-line framing (`sendCommand`, lines 469–535)

The C++ read loop appends each `read()` chunk to `buffer`, then extracts
every complete CRLF-terminated line with `buffer.find("\r\n", start)`.
`extractLines` performs exactly that left-to-right extraction on the
character list: it returns the complete lines (CRLF stripped) in order,
together with the leftover bytes after the last CRLF. -/

def extractLines : List Char → List (List Char) × List Char
  | [] => ([], [])
  | '\r' :: '\n' :: rest =>
    let p := extractLines rest
    ([] :: p.1, p.2)
  | c :: rest =>
    let p := extractLines rest
    match p.1 with
    | [] => ([], c :: p.2)
    | l :: ls => ((c :: l) :: ls, p.2)

/-- The `is_final_line` lambda in `sendCommand`: at least 4 characters, three
digits, then a space (a dash instead marks a continuation line). -/
def isFinalLine : List Char → Bool
  | c0 :: c1 :: c2 :: c3 :: _ => c0.isDigit && c1.isDigit && c2.isDigit && c3 == ' '
  | _ => false

/-- The `is_success_2xx` lambda in `sendCommand`: at least 3 characters and the
first one is the digit `2`. -/
def isSuccess2xx : List Char → Bool
  | c0 :: _ :: _ :: _ => c0 == '2'
  | _ => false

/-- The read loop of `sendCommand` (lines 494–530).  One recursive step per
`read()` call: an exhausted chunk list (and an empty chunk, i.e. `read()`
returning `0`) is end-of-stream and yields `false`; otherwise the chunk is
appended to the carried buffer, complete lines are extracted and collected,
and reading stops as soon as a final line was completed in this chunk, with
overall success taken from the **last** final line extracted in the chunk
(the C++ code overwrites `final_success` at every final line it sees before
breaking out of the read loop). -/
def readReplyAux : List (List Char) → List Char → List (List Char) →
    List (List Char) × Bool
  | [], _buffer, acc => (acc, false)
  | chunk :: rest, buffer, acc =>
    if chunk = [] then (acc, false)
    else
      let p := extractLines (buffer ++ chunk)
      let acc2 := acc ++ p.1
      match (p.1.filter isFinalLine).getLast? with
      | some l => (acc2, isSuccess2xx l)
      | none => readReplyAux rest p.2 acc2

/-- The whole reply-reading phase of `sendCommand`, starting from an empty
buffer and an empty `response_lines`. -/
def readReply (chunks : List (List Char)) : List (List Char) × Bool :=
  readReplyAux chunks [] []

/-- Embeds `sendCommand` (lines 434–536): stub mode fabricates a `250 OK` reply
without any I/O; a missing connection fails; otherwise the command is
written in full and the reply is read.  The third component records the
commands written to the socket. -/
def sendCommand (c : Config) (fd : Int) (command : String)
    (chunks : List (List Char)) : List (List Char) × Bool × List String :=
  if c.enable_stub_mode then (["250 OK".toList], true, [])
  else if fd < 0 then ([], false, [])
  else
    let r := readReply chunks
    (r.1, r.2, [command])

/-- The verdict the read loop reaches when it stops: the success flag of the
last final line collected, `false` when no final line was collected.  Used to
state what `readReply` computes. -/
def lastFinalVerdict (lines : List (List Char)) : Bool :=
  match (lines.filter isFinalLine).getLast? with
  | some l => isSuccess2xx l
  | none => false

/-! ## Cookie hex encoding (`authenticate`, lines 384–393) -/

/-- The uppercase hexadecimal digit for a nibble, as produced by
`std::uppercase << std::hex` for a value below 16. -/
def hexDigitUpper (n : Nat) : Char :=
  if n < 10 then Char.ofNat (48 + n) else Char.ofNat (55 + n)

/-- Formatting via `oss << std::setw(2) << std::setfill('0') << std::uppercase << std::hex
<< static_cast<int>(b)`: the uppercase hexadecimal digits of `b`,
left-padded with `0` to width 2. -/
def hexByteUpper (b : Nat) : List Char :=
  let ds := (Nat.toDigits 16 b).map Char.toUpper
  List.replicate (2 - ds.length) '0' ++ ds

/-- The `hexEncode` lambda of `authenticate`: the per-byte loop appending
two-digit groups to the output stream. -/
def hexEncode : List Nat → List Char
  | [] => []
  | b :: rest => hexByteUpper b ++ hexEncode rest

/-- The encoded cookie as the `std::string` the C++ lambda returns. -/
def hexEncodeStr (bs : List Nat) : String := ⟨hexEncode bs⟩

/-- Uppercase-hexadecimal character class (`0`–`9`, `A`–`F`). -/
def isUpperHexDigit (c : Char) : Bool :=
  ('0' ≤ c && c ≤ '9') || ('A' ≤ c && c ≤ 'F')

/-! ## Deterministic stub identifier (`makeDeterministicStubId`, lines 542–554) -/

/-- The key string hashed by `makeDeterministicStubId`. -/
def stubKey (c : Config) : String :=
  c.local_bind_ip ++ ":" ++ toString c.local_service_port ++ "->" ++
    toString c.onion_virtual_port

/-- Formatting via `std::setw(8) << std::setfill('0') << std::hex` of a 32-bit value:
its lowercase hexadecimal digits left-padded with `0` to width 8. -/
def hexPad8 (n : Nat) : List Char :=
  let ds := Nat.toDigits 16 n
  List.replicate (8 - ds.length) '0' ++ ds

/-- Embeds `makeDeterministicStubId`, parameterised by the (implementation-defined
but fixed, process-wide) `std::hash<std::string>` function.
`static_cast<unsigned>(h)` truncates the hash to 32 bits; the source then
also masks with `0xFFFFFFFF`. -/
def makeDeterministicStubId (hash : String → Nat) (c : Config) : String :=
  "stub-" ++ ⟨hexPad8 ((hash (stubKey c) % 2 ^ 32) &&& 0xFFFFFFFF)⟩

/-! ## Lifecycle operations -/

/-- The result of one lifecycle operation: the C++ `bool` return value, the
manager state afterwards, and the commands written to the control socket
during the call. -/
structure OpOut where
  ok : Bool
  st : ManagerState
  sent : List String
deriving DecidableEq, Repr

/-- Embeds `connectControl` (lines 107–152).  The machine outcome of address
resolution plus the TCP connect loop is `connect_fd`: `some fd` with the
nonnegative descriptor on success, `none` when resolution or every connect
attempt failed.  In stub mode the function bypasses I/O and sets
`control_fd_ = -1`. -/
def connectControl (c : Config) (st : ManagerState) (connect_fd : Option Nat) : OpOut :=
  if c.enable_stub_mode then ⟨true, { st with control_fd := -1 }, []⟩
  else
    match connect_fd with
    | none => ⟨false, st, []⟩
    | some fd => ⟨true, { st with control_fd := (fd : Int) }, []⟩

/-- The reply-scan loop of `authenticate` (lines 409–420): `ok` starts out
`false`; the first line starting with `250` sets it `true` and breaks, the
first line starting with `5` breaks with `false`. -/
def authScan : List (List Char) → Bool
  | [] => false
  | l :: rest =>
    if "250".toList.isPrefixOf l then true
    else if "5".toList.isPrefixOf l then false
    else authScan rest

/-- Embeds `authenticate` (lines 339–430): stub bypass; only Cookie mode is
implemented; a missing connection fails; the cookie file is read fully
(`none` models an unopenable file) and must be non-empty; the hex-encoded
cookie is sent as `AUTHENTICATE <hex>` and the reply is scanned for a
success line. -/
def authenticate (c : Config) (st : ManagerState) (cookie : Option (List Nat))
    (chunks : List (List Char)) : OpOut :=
  if c.enable_stub_mode then ⟨true, st, []⟩
  else if c.auth_mode ≠ AuthMode.Cookie then ⟨false, st, []⟩
  else if st.control_fd < 0 then ⟨false, st, []⟩
  else
    match cookie with
    | none => ⟨false, st, []⟩
    | some cookie_bytes =>
      if cookie_bytes = [] then ⟨false, st, []⟩
      else
        let cmd := "AUTHENTICATE " ++ hexEncodeStr cookie_bytes ++ "\r\n"
        let r := sendCommand c st.control_fd cmd chunks
        if r.2.1 = false then ⟨false, st, r.2.2⟩
        else if authScan r.1 then ⟨true, st, r.2.2⟩
        else ⟨false, st, r.2.2⟩

/-- The `ADD_ONION` command string built by `addOnion` (lines 237–253):
`none` when ProvidedKey mode is selected but the key is empty (the function
returns `false` before sending anything in that case). -/
def addOnionCommand (c : Config) : Option String :=
  match c.persistence_mode with
  | PersistenceMode.Ephemeral =>
    some ("ADD_ONION NEW:ED25519-V3 " ++
      ("Port=" ++ toString c.onion_virtual_port ++ "," ++
        c.local_bind_ip ++ ":" ++ toString c.local_service_port ++ "\r\n"))
  | PersistenceMode.ProvidedKey =>
    if c.provided_private_key_base64 = "" then none
    else
      some ("ADD_ONION ED25519-V3:" ++ c.provided_private_key_base64 ++ " " ++
        ("Port=" ++ toString c.onion_virtual_port ++ "," ++
          c.local_bind_ip ++ ":" ++ toString c.local_service_port ++ "\r\n"))

/-- The reply-parse loop of `addOnion` (lines 266–275), threading the
`(out_service_id, out_private_key)` pair; a later match overwrites an
earlier one.  Note that the source tests the prefix `"250-ServiceId="`
(lowercase `d`) while it strips `std::string("250-ServiceID=").size()`
= 14 characters; `"250-PrivateKey="` has 15 characters. -/
def addOnionParse : List (List Char) → String × String → String × String
  | [], out => out
  | l :: rest, out =>
    if "250-ServiceId=".toList.isPrefixOf l then
      addOnionParse rest (⟨l.drop 14⟩, out.2)
    else if "250-PrivateKey=".toList.isPrefixOf l then
      addOnionParse rest (out.1, ⟨l.drop 15⟩)
    else addOnionParse rest out

/-- Embeds `addOnion` (lines 203–289). -/
def addOnion (hash : String → Nat) (c : Config) (st : ManagerState)
    (chunks : List (List Char)) : OpOut :=
  if c.enable_stub_mode then
    ⟨true, { st with service_id := makeDeterministicStubId hash c }, []⟩
  else if st.control_fd < 0 then ⟨false, st, []⟩
  else
    match addOnionCommand c with
    | none => ⟨false, st, []⟩
    | some cmd =>
      let r := sendCommand c st.control_fd cmd chunks
      if r.2.1 = false then ⟨false, st, r.2.2⟩
      else
        let out := addOnionParse r.1 ("", "")
        if out.1 = "" then ⟨false, st, r.2.2⟩
        else
          ⟨true,
            { st with
              service_id := out.1,
              private_key :=
                if c.persistence_mode = PersistenceMode.Ephemeral ∧ out.2 ≠ "" then out.2
                else st.private_key },
            r.2.2⟩

/-- Embeds `delOnion` (lines 291–329).  The command is built as
`"DEL_ONION" + service_id_` — the source has no separating space. -/
def delOnion (c : Config) (st : ManagerState) (chunks : List (List Char)) : OpOut :=
  if c.enable_stub_mode then ⟨true, st, []⟩
  else if st.service_id = "" then ⟨true, st, []⟩
  else if st.control_fd < 0 then ⟨false, st, []⟩
  else
    let cmd := "DEL_ONION" ++ st.service_id ++ "\r\n"
    let r := sendCommand c st.control_fd cmd chunks
    if r.2.1 = false then ⟨false, st, r.2.2⟩
    else ⟨true, { st with service_id := "", private_key := "" }, r.2.2⟩

/-- Embeds `closeControl` (lines 331–337): resets `control_fd_` and always
returns `true`. -/
def closeControl (st : ManagerState) : Bool × ManagerState :=
  (true, { st with control_fd := -1 })

/-- The lifecycle steps `setupHiddenService` can perform in real mode.
`bootstrap` stands for the implemented-but-never-invoked
`waitBootstrapped`. -/
inductive Step
  | connect
  | auth
  | bootstrap
  | addOnion
  | close
deriving DecidableEq, Repr

/-- Environment for one real-mode run: outcome of the TCP connect, the
cookie-file contents (`none` if the file could not be opened), and the byte
chunks the daemon sends in reply to the `AUTHENTICATE` and `ADD_ONION`
commands. -/
structure RealEnv where
  connect_fd : Option Nat := none
  cookie : Option (List Nat) := none
  auth_chunks : List (List Char) := []
  addonion_chunks : List (List Char) := []

/-- Result of `setupHiddenService`: return value, state, and the ordered
trace of steps the call performed. -/
structure SetupOut where
  ok : Bool
  st : ManagerState
  trace : List Step
deriving DecidableEq, Repr

/-- Embeds `setupHiddenService` (lines 23–67).  The real-mode flow is
`connectControl`, then `authenticate`, then `addOnion`, closing the control
connection whenever a step after a successful connect fails;
`waitBootstrapped` (lines 154–201) exists in the source but is never
invoked from here. -/
def setupHiddenService (hash : String → Nat) (c : Config) (st : ManagerState)
    (env : RealEnv) : SetupOut :=
  if c.enable_stub_mode then
    let st1 := { st with service_id := makeDeterministicStubId hash c }
    let st2 := { st1 with ready := st1.service_id != "" }
    ⟨st2.ready, st2, []⟩
  else
    let rc := connectControl c st env.connect_fd
    if rc.ok = false then ⟨false, rc.st, [Step.connect]⟩
    else
      let ra := authenticate c rc.st env.cookie env.auth_chunks
      if ra.ok = false then
        ⟨false, (closeControl ra.st).2, [Step.connect, Step.auth, Step.close]⟩
      else
        let ro := addOnion hash c ra.st env.addonion_chunks
        if ro.ok = false then
          ⟨false, (closeControl ro.st).2,
            [Step.connect, Step.auth, Step.addOnion, Step.close]⟩
        else
          let st2 := { ro.st with ready := ro.st.service_id != "" }
          ⟨st2.ready, st2, [Step.connect, Step.auth, Step.addOnion]⟩

/-- Embeds `teardownHiddenService` (lines 69–98): in stub mode only local state is
cleared; in real mode `delOnion` runs when an identifier is held, then
`closeControl`, and the identifier, key and readiness flag are cleared
unconditionally before returning. -/
def teardownHiddenService (c : Config) (st : ManagerState)
    (chunks : List (List Char)) : OpOut :=
  if c.enable_stub_mode then
    ⟨true, { st with service_id := "", private_key := "", ready := false }, []⟩
  else
    let r := if st.service_id ≠ "" then delOnion c st chunks else ⟨true, st, []⟩
    let rc := closeControl r.st
    let ok := if rc.1 = false then false else r.ok
    ⟨ok, { rc.2 with service_id := "", private_key := "", ready := false }, r.sent⟩

end HiddenServiceManager

namespace HiddenServiceManager

/-! ## Lemmas about CRLF line extraction -/

/-- When no complete line was found, the leftover is the whole input. -/
theorem extractLines_leftover (s : List Char) :
    (extractLines s).1 = [] → (extractLines s).2 = s := by
  induction s using extractLines.induct with
  | case1 => intro _; rfl
  | case2 rest ih =>
    rw [extractLines.eq_2]
    intro h
    cases h
  | case3 c rest hne p hp ih =>
    have hrest : (extractLines rest).1 = [] := hp
    rw [extractLines.eq_3 c rest hne, hrest]
    intro _
    simp only []
    rw [ih hrest]
  | case4 c rest hne p l ls hp ih =>
    have hrest : (extractLines rest).1 = l :: ls := hp
    rw [extractLines.eq_3 c rest hne, hrest]
    intro h
    cases h

/-- The leftover after line extraction contains no complete line itself. -/
theorem extractLines_leftover_no_lines (s : List Char) :
    (extractLines (extractLines s).2).1 = [] := by
  induction s using extractLines.induct with
  | case1 => rfl
  | case2 rest ih =>
    rw [extractLines.eq_2]
    exact ih
  | case3 c rest hne p hp ih =>
    have hrest : (extractLines rest).1 = [] := hp
    rw [extractLines.eq_3 c rest hne, hrest]
    simp only []
    rw [extractLines_leftover rest hrest, extractLines.eq_3 c rest hne, hrest]
  | case4 c rest hne p l ls hp ih =>
    have hrest : (extractLines rest).1 = l :: ls := hp
    rw [extractLines.eq_3 c rest hne, hrest]
    simp only []
    exact ih

/-- Left-to-right extraction is compositional: extracting from `s ++ t`
yields the complete lines of `s`, followed by whatever extraction finds in
the leftover of `s` glued to `t` (this also covers a CRLF pair straddling
the boundary). -/
theorem extractLines_append (s t : List Char) :
    extractLines (s ++ t) =
      ((extractLines s).1 ++ (extractLines ((extractLines s).2 ++ t)).1,
        (extractLines ((extractLines s).2 ++ t)).2) := by
  induction s using extractLines.induct with
  | case1 => simp [extractLines]
  | case2 rest ih =>
    rw [List.cons_append, List.cons_append, extractLines.eq_2, extractLines.eq_2, ih]
    simp
  | case3 c rest hne p hp ih =>
    have hrest : (extractLines rest).1 = [] := hp
    have hleft := extractLines_leftover rest hrest
    rw [extractLines.eq_3 c rest hne, hrest]
    simp only []
    rw [hleft, List.nil_append, List.cons_append]
  | case4 c rest hne p l ls hp ih =>
    have hrest : (extractLines rest).1 = l :: ls := hp
    have hrestne : rest ≠ [] := by
      intro h0
      rw [h0] at hrest
      cases hrest
    have hne2 : ∀ w : List Char, c = '\r' → rest ++ t = '\n' :: w → False := by
      intro w hc hw
      rcases rest with _ | ⟨r0, rest'⟩
      · exact hrestne rfl
      · rw [List.cons_append] at hw
        injection hw with h1 h2
        exact hne rest' hc (by rw [h1])
    rw [List.cons_append, extractLines.eq_3 c (rest ++ t) hne2, ih, hrest,
      extractLines.eq_3 c rest hne, hrest]
    simp

/-! ## Lemmas about the read loop of `sendCommand` -/

/-- Verdict invariant of the read loop: as long as no final line has been
collected yet, the boolean the loop returns is the verdict of the last
final line among all lines it ends up collecting (`false` when none). -/
theorem readReplyAux_verdict : ∀ (chunks : List (List Char)) (buffer : List Char)
    (acc : List (List Char)), acc.filter isFinalLine = [] →
    (readReplyAux chunks buffer acc).2 =
      lastFinalVerdict (readReplyAux chunks buffer acc).1 := by
  intro chunks
  induction chunks with
  | nil =>
    intro buffer acc hacc
    simp [readReplyAux, lastFinalVerdict, hacc]
  | cons chunk rest ih =>
    intro buffer acc hacc
    by_cases hchunk : chunk = []
    · simp [readReplyAux, hchunk, lastFinalVerdict, hacc]
    · rcases hfin : ((extractLines (buffer ++ chunk)).1.filter isFinalLine).getLast?
        with _ | l
      · have hfl : (extractLines (buffer ++ chunk)).1.filter isFinalLine = [] :=
          List.getLast?_eq_none_iff.mp hfin
        have hacc2 : (acc ++ (extractLines (buffer ++ chunk)).1).filter isFinalLine = [] := by
          simp [List.filter_append, hacc, hfl]
        simp only [readReplyAux, if_neg hchunk, hfin]
        exact ih _ _ hacc2
      · have hlast : ((acc ++ (extractLines (buffer ++ chunk)).1).filter
            isFinalLine).getLast? = some l := by
          rw [List.filter_append, hacc, List.nil_append]
          exact hfin
        simp only [readReplyAux, if_neg hchunk, hfin, lastFinalVerdict, hlast]

/-- Collection invariant of the read loop: the lines collected are the
accumulator followed by the complete lines of the carried buffer glued to
some prefix of the chunk stream, and before every strictly earlier prefix
the loop had collected no final line. -/
theorem readReplyAux_lines : ∀ (chunks : List (List Char)) (buffer : List Char)
    (acc : List (List Char)), (extractLines buffer).1 = [] →
    ∃ k ≤ chunks.length,
      (readReplyAux chunks buffer acc).1 =
        acc ++ (extractLines (buffer ++ (chunks.take k).flatten)).1 ∧
      ∀ j < k, (extractLines (buffer ++ (chunks.take j).flatten)).1.filter isFinalLine = [] := by
  intro chunks
  induction chunks with
  | nil =>
    intro buffer acc hbuf
    refine ⟨0, Nat.le_refl 0, ?_, ?_⟩
    · simp [readReplyAux, hbuf]
    · intro j hj
      exact absurd hj (Nat.not_lt_zero j)
  | cons chunk rest ih =>
    intro buffer acc hbuf
    by_cases hchunk : chunk = []
    · refine ⟨0, Nat.zero_le _, ?_, ?_⟩
      · simp [readReplyAux, hchunk, hbuf]
      · intro j hj
        exact absurd hj (Nat.not_lt_zero j)
    · rcases hfin : ((extractLines (buffer ++ chunk)).1.filter isFinalLine).getLast?
        with _ | l
      · -- no final line in this chunk: the loop recurses
        have hfl : (extractLines (buffer ++ chunk)).1.filter isFinalLine = [] :=
          List.getLast?_eq_none_iff.mp hfin
        have hbuf2 : (extractLines (extractLines (buffer ++ chunk)).2).1 = [] :=
          extractLines_leftover_no_lines (buffer ++ chunk)
        obtain ⟨k, hk, hlines, hmin⟩ :=
          ih (extractLines (buffer ++ chunk)).2 (acc ++ (extractLines (buffer ++ chunk)).1) hbuf2
        refine ⟨k + 1, Nat.succ_le_succ hk, ?_, ?_⟩
        · simp only [readReplyAux, if_neg hchunk, hfin]
          rw [hlines, List.take_succ_cons, List.flatten_cons, ← List.append_assoc buffer,
            extractLines_append (buffer ++ chunk)]
          simp [List.append_assoc]
        · intro j hj
          cases j with
          | zero => simp [hbuf]
          | succ j' =>
            have hj' : j' < k := Nat.lt_of_succ_lt_succ hj
            rw [List.take_succ_cons, List.flatten_cons, ← List.append_assoc buffer,
              extractLines_append (buffer ++ chunk)]
            simp [List.filter_append, hfl, hmin j' hj']
      · -- a final line completed in this chunk: the loop stops here
        refine ⟨1, Nat.succ_le_succ (Nat.zero_le _), ?_, ?_⟩
        · simp only [readReplyAux, if_neg hchunk, hfin]
          simp
        · intro j hj
          have hj0 : j = 0 := Nat.lt_one_iff.mp hj
          rw [hj0]
          simp [hbuf]

/-! ## Claim C3 -/

/-- Claim C3, counterexample.  When one read chunk carries two final lines,
the first final line collected is `250 OK`, whose first character is the
digit `2`, yet `sendCommand` reports failure: the source keeps extracting
lines from the chunk after the first final line and overwrites
`final_success` with the verdict of the later `550 NO` line.  The claim's
"stops reading at the first final line ... success iff the first character
of that final line is the digit 2" is false on this input. -/
theorem sendCommand_first_final_counterexample :
    ((sendCommand { enable_stub_mode := false } 3 "GETINFO status\r\n"
        ["250 OK\r\n550 NO\r\n".toList]).1.find? isFinalLine = some "250 OK".toList) ∧
    isSuccess2xx "250 OK".toList = true ∧
    (sendCommand { enable_stub_mode := false } 3 "GETINFO status\r\n"
        ["250 OK\r\n550 NO\r\n".toList]).2.1 = false := by
  decide

/-- Claim C3 (amended): in real mode on an open connection, `sendCommand`
collects exactly the complete CRLF-terminated lines of some prefix of the
incoming chunk stream, in original order; reading continues past a chunk
only when no final line (three digits then a space) was completed in it,
so it stops with the first chunk that completes a final line (lines
completed later in that same chunk are still collected); and the reported
success is the verdict of the last final line collected — `true` iff it
starts with the digit `2`, `false` when no final line was collected. -/
theorem sendCommand_framing (c : Config) (fd : Int) (cmd : String)
    (chunks : List (List Char)) (hstub : c.enable_stub_mode = false)
    (hfd : 0 ≤ fd) :
    ∃ k ≤ chunks.length,
      (sendCommand c fd cmd chunks).1 = (extractLines (chunks.take k).flatten).1 ∧
      (∀ j < k, (extractLines (chunks.take j).flatten).1.filter isFinalLine = []) ∧
      (sendCommand c fd cmd chunks).2.1 =
        lastFinalVerdict (sendCommand c fd cmd chunks).1 := by
  have hfd2 : ¬ fd < 0 := not_lt.mpr hfd
  obtain ⟨k, hk, hlines, hmin⟩ := readReplyAux_lines chunks [] [] rfl
  have hver := readReplyAux_verdict chunks [] [] rfl
  refine ⟨k, hk, ?_, ?_, ?_⟩
  · simp only [sendCommand, hstub, Bool.false_eq_true, if_false, if_neg hfd2]
    simpa [readReply] using hlines
  · intro j hj
    simpa using hmin j hj
  · simp only [sendCommand, hstub, Bool.false_eq_true, if_false, if_neg hfd2]
    simpa [readReply] using hver

/-- Claim C3, witness for the amended theorem at a concrete input. -/
theorem sendCommand_framing_witness :
    ({ enable_stub_mode := false : Config }.enable_stub_mode = false) ∧
    (0 : Int) ≤ 3 ∧
    ∃ k ≤ [("250-A\r\n".toList), ("250 OK\r\n".toList)].length,
      (sendCommand { enable_stub_mode := false } 3 "GETINFO status\r\n"
          [("250-A\r\n".toList), ("250 OK\r\n".toList)]).1 =
        (extractLines ([("250-A\r\n".toList), ("250 OK\r\n".toList)].take k).flatten).1 ∧
      (∀ j < k, (extractLines ([("250-A\r\n".toList), ("250 OK\r\n".toList)].take j).flatten).1.filter
          isFinalLine = []) ∧
      (sendCommand { enable_stub_mode := false } 3 "GETINFO status\r\n"
          [("250-A\r\n".toList), ("250 OK\r\n".toList)]).2.1 =
        lastFinalVerdict (sendCommand { enable_stub_mode := false } 3 "GETINFO status\r\n"
          [("250-A\r\n".toList), ("250 OK\r\n".toList)]).1 :=
  ⟨rfl, by decide,
    sendCommand_framing { enable_stub_mode := false } 3 "GETINFO status\r\n"
      [("250-A\r\n".toList), ("250 OK\r\n".toList)] rfl (by decide)⟩

/-! ## Claim C7 -/

/-- Claim C7 (confirmed): in real mode, when the byte stream ends before any
final reply line has been completed, `sendCommand` reports failure — for
every command and every such stream (a disconnected session also reports
failure). -/
theorem sendCommand_eof_failure (c : Config) (fd : Int) (cmd : String)
    (chunks : List (List Char)) (hstub : c.enable_stub_mode = false)
    (hnofinal : (extractLines chunks.flatten).1.filter isFinalLine = []) :
    (sendCommand c fd cmd chunks).2.1 = false := by
  by_cases hfd : fd < 0
  · simp [sendCommand, hstub, hfd]
  · simp only [sendCommand, hstub, Bool.false_eq_true, if_false, if_neg hfd]
    obtain ⟨k, hk, hlines, -⟩ := readReplyAux_lines chunks [] [] rfl
    have hver := readReplyAux_verdict chunks [] [] rfl
    have hsplit : chunks.flatten = (chunks.take k).flatten ++ (chunks.drop k).flatten := by
      rw [← List.flatten_append, List.take_append_drop]
    rw [hsplit, extractLines_append, List.filter_append] at hnofinal
    have hleft : (extractLines (chunks.take k).flatten).1.filter isFinalLine = [] :=
      (List.append_eq_nil.mp hnofinal).1
    have hlines2 : (readReply chunks).1 = (extractLines (chunks.take k).flatten).1 := by
      simpa [readReply] using hlines
    have hver2 : (readReply chunks).2 = lastFinalVerdict (readReply chunks).1 := hver
    show (readReply chunks).2 = false
    rw [hver2, hlines2]
    simp [lastFinalVerdict, hleft]

/-- Claim C7, witness: a stream consisting of a single continuation line and
then end-of-stream yields failure. -/
theorem sendCommand_eof_failure_witness :
    ({ enable_stub_mode := false : Config }.enable_stub_mode = false) ∧
    ((extractLines [("250-A\r\n".toList)].flatten).1.filter isFinalLine = []) ∧
    (sendCommand { enable_stub_mode := false } 3 "GETINFO status\r\n"
        [("250-A\r\n".toList)]).2.1 = false :=
  ⟨rfl, by decide,
    sendCommand_eof_failure { enable_stub_mode := false } 3 "GETINFO status\r\n"
      [("250-A\r\n".toList)] rfl (by decide)⟩

/-! ## Claim C5 -/

set_option maxRecDepth 8192 in
/-- For a byte, `setw(2)`/`setfill('0')` formatting yields exactly the two
uppercase nibble digits, most significant nibble first. -/
theorem hexByteUpper_eq : ∀ b < 256,
    hexByteUpper b = [hexDigitUpper (b / 16), hexDigitUpper (b % 16)] := by
  decide

/-- Every nibble digit lands in the uppercase-hexadecimal character class. -/
theorem hexDigitUpper_upper : ∀ n < 16, isUpperHexDigit (hexDigitUpper n) = true := by
  decide

/-- Structure of the encoding: two digits per input byte, in input order. -/
theorem hexEncode_eq : ∀ bs : List Nat, (∀ b ∈ bs, b < 256) →
    hexEncode bs =
      bs.flatMap (fun b => [hexDigitUpper (b / 16), hexDigitUpper (b % 16)]) := by
  intro bs
  induction bs with
  | nil => intro _; rfl
  | cons b rest ih =>
    intro hb
    rw [hexEncode, hexByteUpper_eq b (hb b (List.mem_cons_self b rest)),
      ih (fun x hx => hb x (List.mem_cons_of_mem b hx))]
    rfl

/-- Length of the encoding: two characters per input byte. -/
theorem hexEncode_length : ∀ bs : List Nat, (∀ b ∈ bs, b < 256) →
    (hexEncode bs).length = 2 * bs.length := by
  intro bs
  induction bs with
  | nil => intro _; rfl
  | cons b rest ih =>
    intro hb
    rw [hexEncode, List.length_append, hexByteUpper_eq b (hb b (List.mem_cons_self b rest)),
      ih (fun x hx => hb x (List.mem_cons_of_mem b hx))]
    simp [List.length_cons]
    omega

/-- Every character of the encoding is an uppercase hexadecimal digit. -/
theorem hexEncode_upper : ∀ bs : List Nat, (∀ b ∈ bs, b < 256) →
    ∀ ch ∈ hexEncode bs, isUpperHexDigit ch = true := by
  intro bs
  induction bs with
  | nil =>
    intro _ ch hch
    cases hch
  | cons b rest ih =>
    intro hb ch hch
    rw [hexEncode] at hch
    rcases List.mem_append.mp hch with h1 | h2
    · rw [hexByteUpper_eq b (hb b (List.mem_cons_self b rest))] at h1
      have hblt : b < 256 := hb b (List.mem_cons_self b rest)
      have hdiv : b / 16 < 16 := Nat.div_lt_of_lt_mul (by omega)
      have hmod : b % 16 < 16 := Nat.mod_lt b (by omega)
      simp only [List.mem_cons, List.not_mem_nil, or_false] at h1
      rcases h1 with rfl | rfl
      · exact hexDigitUpper_upper _ hdiv
      · exact hexDigitUpper_upper _ hmod
    · exact ih (fun x hx => hb x (List.mem_cons_of_mem b hx)) ch h2

/-- Claim C5 (confirmed): for every non-empty byte sequence, the cookie
hex-encoding used by `authenticate` produces exactly two uppercase
hexadecimal characters per input byte, most-significant nibble first, and
is a pure function of the byte sequence. -/
theorem hexEncodeStr_spec (bs : List Nat) (hne : bs ≠ []) (hb : ∀ b ∈ bs, b < 256) :
    (hexEncodeStr bs).toList =
      bs.flatMap (fun b => [hexDigitUpper (b / 16), hexDigitUpper (b % 16)]) ∧
    (hexEncodeStr bs).length = 2 * bs.length ∧
    (∀ ch ∈ (hexEncodeStr bs).toList, isUpperHexDigit ch = true) ∧
    (∀ bs2 : List Nat, bs2 = bs → hexEncodeStr bs2 = hexEncodeStr bs) := by
  refine ⟨hexEncode_eq bs hb, hexEncode_length bs hb, hexEncode_upper bs hb, ?_⟩
  intro bs2 h
  rw [h]

/-- Claim C5, witness at a concrete three-byte cookie. -/
theorem hexEncodeStr_spec_witness :
    (([0, 171, 255] : List Nat) ≠ []) ∧ (∀ b ∈ ([0, 171, 255] : List Nat), b < 256) ∧
    ((hexEncodeStr [0, 171, 255]).toList =
        ([0, 171, 255] : List Nat).flatMap
          (fun b => [hexDigitUpper (b / 16), hexDigitUpper (b % 16)]) ∧
      (hexEncodeStr [0, 171, 255]).length = 2 * ([0, 171, 255] : List Nat).length ∧
      (∀ ch ∈ (hexEncodeStr [0, 171, 255]).toList, isUpperHexDigit ch = true) ∧
      (∀ bs2 : List Nat, bs2 = [0, 171, 255] → hexEncodeStr bs2 = hexEncodeStr [0, 171, 255])) :=
  ⟨by decide, by decide, hexEncodeStr_spec [0, 171, 255] (by decide) (by decide)⟩

/-! ## Claim C6 -/

/-- Claim C6 (confirmed): the stub identifier is a function of exactly the
triple (local bind address, local service port, onion virtual port): any
two configurations agreeing on the triple — whatever their other fields —
yield the identical identifier, for every (fixed) hash function. -/
theorem makeDeterministicStubId_triple (hash : String → Nat) (c1 c2 : Config)
    (hip : c1.local_bind_ip = c2.local_bind_ip)
    (hport : c1.local_service_port = c2.local_service_port)
    (hvirt : c1.onion_virtual_port = c2.onion_virtual_port) :
    makeDeterministicStubId hash c1 = makeDeterministicStubId hash c2 := by
  unfold makeDeterministicStubId stubKey
  rw [hip, hport, hvirt]

/-- Claim C6, witness: two configurations agreeing on the triple but
differing in control host, control port, auth mode, cookie path, control
password, persistence mode, key material, timeout, redaction and stub flag
produce the same identifier. -/
theorem makeDeterministicStubId_triple_witness :
    (({ local_bind_ip := "127.0.0.1", local_service_port := 5000,
        onion_virtual_port := 12345 } : Config).local_bind_ip =
      ({ local_bind_ip := "127.0.0.1", local_service_port := 5000,
          onion_virtual_port := 12345, tor_control_host := "10.0.0.7",
          tor_control_port := 9151, auth_mode := AuthMode.Password,
          tor_cookie_path := "/tmp/cookie", tor_control_password := "pw",
          persistence_mode := PersistenceMode.ProvidedKey,
          provided_private_key_base64 := "KEY", bootstrap_timeout_ms := 1,
          redact_secrets_in_logs := false, enable_stub_mode := false } : Config).local_bind_ip) ∧
    (({ local_bind_ip := "127.0.0.1", local_service_port := 5000,
        onion_virtual_port := 12345 } : Config).local_service_port =
      ({ local_bind_ip := "127.0.0.1", local_service_port := 5000,
          onion_virtual_port := 12345, tor_control_host := "10.0.0.7",
          tor_control_port := 9151, auth_mode := AuthMode.Password,
          tor_cookie_path := "/tmp/cookie", tor_control_password := "pw",
          persistence_mode := PersistenceMode.ProvidedKey,
          provided_private_key_base64 := "KEY", bootstrap_timeout_ms := 1,
          redact_secrets_in_logs := false, enable_stub_mode := false } : Config).local_service_port) ∧
    (({ local_bind_ip := "127.0.0.1", local_service_port := 5000,
        onion_virtual_port := 12345 } : Config).onion_virtual_port =
      ({ local_bind_ip := "127.0.0.1", local_service_port := 5000,
          onion_virtual_port := 12345, tor_control_host := "10.0.0.7",
          tor_control_port := 9151, auth_mode := AuthMode.Password,
          tor_cookie_path := "/tmp/cookie", tor_control_password := "pw",
          persistence_mode := PersistenceMode.ProvidedKey,
          provided_private_key_base64 := "KEY", bootstrap_timeout_ms := 1,
          redact_secrets_in_logs := false, enable_stub_mode := false } : Config).onion_virtual_port) ∧
    makeDeterministicStubId String.length
        { local_bind_ip := "127.0.0.1", local_service_port := 5000,
          onion_virtual_port := 12345 } =
      makeDeterministicStubId String.length
        { local_bind_ip := "127.0.0.1", local_service_port := 5000,
          onion_virtual_port := 12345, tor_control_host := "10.0.0.7",
          tor_control_port := 9151, auth_mode := AuthMode.Password,
          tor_cookie_path := "/tmp/cookie", tor_control_password := "pw",
          persistence_mode := PersistenceMode.ProvidedKey,
          provided_private_key_base64 := "KEY", bootstrap_timeout_ms := 1,
          redact_secrets_in_logs := false, enable_stub_mode := false } :=
  ⟨rfl, rfl, rfl, makeDeterministicStubId_triple String.length _ _ rfl rfl rfl⟩

/-! ## Claim C1 -/

/-- Claim C1 (code bug): the real-mode `setupHiddenService` flow is
`connectControl`, `authenticate`, `addOnion` — the `waitBootstrapped` step
required by the documented lifecycle never appears in the trace of any
real-mode call, whatever the environment does. -/
theorem setupHiddenService_no_bootstrap (hash : String → Nat) (c : Config)
    (st : ManagerState) (env : RealEnv) (hstub : c.enable_stub_mode = false) :
    Step.bootstrap ∉ (setupHiddenService hash c st env).trace := by
  simp only [setupHiddenService, hstub, Bool.false_eq_true, if_false]
  split_ifs <;> simp

/-- Claim C1, witness at a concrete real-mode configuration. -/
theorem setupHiddenService_no_bootstrap_witness :
    (({ enable_stub_mode := false } : Config).enable_stub_mode = false) ∧
    Step.bootstrap ∉
      (setupHiddenService (fun _ => 0) { enable_stub_mode := false } {} {}).trace :=
  ⟨rfl, setupHiddenService_no_bootstrap (fun _ => 0) { enable_stub_mode := false } {} {} rfl⟩

/-! ## Claim C2 -/

/-- Claim C2 (code bug): fed the canned success reply
`250-ServiceID=ABC` / `250 OK` on an open, real-mode session, `addOnion`
returns failure and stores no identifier, because the parse loop matches
the misspelled prefix `250-ServiceId=` (lowercase `d`) and therefore never
recognises the `250-ServiceID=` line that Tor actually sends and that the
source's own comment documents. -/
theorem addOnion_misses_serviceID_line :
    (addOnion (fun _ => 0) { enable_stub_mode := false } { control_fd := 3 }
        ["250-ServiceID=ABC\r\n250 OK\r\n".toList]).ok = false ∧
    (addOnion (fun _ => 0) { enable_stub_mode := false } { control_fd := 3 }
        ["250-ServiceID=ABC\r\n250 OK\r\n".toList]).st.service_id = "" ∧
    (addOnion (fun _ => 0) { enable_stub_mode := false } { control_fd := 3 }
        ["250-ServiceId=ABC\r\n250 OK\r\n".toList]).ok = true ∧
    (addOnion (fun _ => 0) { enable_stub_mode := false } { control_fd := 3 }
        ["250-ServiceId=ABC\r\n250 OK\r\n".toList]).st.service_id = "ABC" := by
  decide

/-! ## Claim C4 -/

/-- Claim C4, counterexample: in real mode with a held service identifier
but no connection (`control_fd_ < 0`), `delOnion` returns failure — not the
success the claim asserts for the not-connected case (it does send
nothing). -/
theorem delOnion_disconnected_fails :
    (delOnion { enable_stub_mode := false } { control_fd := -1, service_id := "abc" } []).ok
        = false ∧
    (delOnion { enable_stub_mode := false } { control_fd := -1, service_id := "abc" } []).sent
        = [] := by
  decide

/-- Claim C4 (amended): in real mode `delOnion` returns success without
sending any command, and without touching the state, whenever no service
identifier is held (so repeated teardown is idempotent); when an identifier
is held but the session is not connected, it sends no command either but
returns failure. -/
theorem delOnion_noop (c : Config) (st : ManagerState) (chunks : List (List Char))
    (hstub : c.enable_stub_mode = false) :
    (st.service_id = "" →
      (delOnion c st chunks).ok = true ∧ (delOnion c st chunks).sent = [] ∧
      (delOnion c st chunks).st = st) ∧
    (st.service_id ≠ "" → st.control_fd < 0 →
      (delOnion c st chunks).ok = false ∧ (delOnion c st chunks).sent = []) := by
  constructor
  · intro hid
    simp [delOnion, hstub, hid]
  · intro hid hfd
    simp [delOnion, hstub, hid, hfd]

/-- Claim C4, witness: a fresh manager (no identifier held) in real mode. -/
theorem delOnion_noop_witness :
    (({ enable_stub_mode := false } : Config).enable_stub_mode = false) ∧
    ((({} : ManagerState).service_id = "" →
      (delOnion { enable_stub_mode := false } {} []).ok = true ∧
      (delOnion { enable_stub_mode := false } {} []).sent = [] ∧
      (delOnion { enable_stub_mode := false } {} []).st = {}) ∧
    (({} : ManagerState).service_id ≠ "" → ({} : ManagerState).control_fd < 0 →
      (delOnion { enable_stub_mode := false } {} []).ok = false ∧
      (delOnion { enable_stub_mode := false } {} []).sent = [])) :=
  ⟨rfl, delOnion_noop { enable_stub_mode := false } {} [] rfl⟩

/-! ## Claim C8 -/

/-- Claim C8 (confirmed): in real mode, `addOnion` in ProvidedKey mode with
empty key material fails without sending any command, while in Ephemeral
mode on an open connection the single command it sends opens with
`ADD_ONION NEW:ED25519-V3`, requesting a freshly generated key. -/
theorem addOnion_key_modes (hash : String → Nat) (c : Config) (st : ManagerState)
    (chunks : List (List Char)) (hstub : c.enable_stub_mode = false) :
    (c.persistence_mode = PersistenceMode.ProvidedKey →
      c.provided_private_key_base64 = "" →
      (addOnion hash c st chunks).ok = false ∧ (addOnion hash c st chunks).sent = []) ∧
    (c.persistence_mode = PersistenceMode.Ephemeral → 0 ≤ st.control_fd →
      ∃ rest : String,
        (addOnion hash c st chunks).sent = ["ADD_ONION NEW:ED25519-V3 " ++ rest]) := by
  constructor
  · intro hmode hkey
    by_cases hfd : st.control_fd < 0
    · simp [addOnion, hstub, hfd]
    · simp [addOnion, hstub, hfd, addOnionCommand, hmode, hkey]
  · intro hmode hfd
    have hfd2 : ¬ st.control_fd < 0 := not_lt.mpr hfd
    refine ⟨"Port=" ++ toString c.onion_virtual_port ++ "," ++ c.local_bind_ip ++ ":" ++
      toString c.local_service_port ++ "\r\n", ?_⟩
    simp only [addOnion, hstub, Bool.false_eq_true, if_false, if_neg hfd2,
      addOnionCommand, hmode, sendCommand]
    split_ifs <;> rfl

/-- Claim C8, witness: a ProvidedKey configuration with empty key and an
Ephemeral configuration on an open connection. -/
theorem addOnion_key_modes_witness :
    (({ enable_stub_mode := false } : Config).enable_stub_mode = false) ∧
    (({ enable_stub_mode := false } : Config).persistence_mode = PersistenceMode.ProvidedKey →
      ({ enable_stub_mode := false } : Config).provided_private_key_base64 = "" →
      (addOnion (fun _ => 0) { enable_stub_mode := false } { control_fd := 3 } []).ok = false ∧
      (addOnion (fun _ => 0) { enable_stub_mode := false } { control_fd := 3 } []).sent = []) ∧
    (({ enable_stub_mode := false } : Config).persistence_mode = PersistenceMode.Ephemeral →
      0 ≤ ({ control_fd := 3 } : ManagerState).control_fd →
      ∃ rest : String,
        (addOnion (fun _ => 0) { enable_stub_mode := false } { control_fd := 3 } []).sent =
          ["ADD_ONION NEW:ED25519-V3 " ++ rest]) :=
  ⟨rfl,
    (addOnion_key_modes (fun _ => 0) { enable_stub_mode := false } { control_fd := 3 } [] rfl).1,
    (addOnion_key_modes (fun _ => 0) { enable_stub_mode := false } { control_fd := 3 } [] rfl).2⟩

/-! ## Claim C9 -/

/-- Claim C9, counterexample: in real mode, in the state reached right
after a successful `connectControl` — before any authentication — the
source happily sends its `ADD_ONION` command: no authenticated-state check
exists, so "createOnionService invoked before successful authentication
returns failure rather than issuing its command" is false at this input. -/
theorem addOnion_before_authentication_sends :
    (addOnion (fun _ => 0) { enable_stub_mode := false }
        (connectControl { enable_stub_mode := false } {} (some 4)).st
        ["250 OK\r\n".toList]).sent ≠ [] := by
  decide

/-- Claim C9 (amended): the ordering the real-mode code actually enforces
is relative to the connection, not to authentication: `authenticate`
invoked without an established connection returns failure without sending
anything; `addOnion` invoked without an established connection returns
failure without issuing its command; `delOnion` without an established
connection issues no command (and returns success exactly when no
identifier is held).  Authentication state is not tracked, so ordering
relative to `authenticate` is not enforced. -/
theorem session_requires_connection (hash : String → Nat) (c : Config)
    (st : ManagerState) (cookie : Option (List Nat)) (chunks : List (List Char))
    (hstub : c.enable_stub_mode = false) (hfd : st.control_fd < 0) :
    ((authenticate c st cookie chunks).ok = false ∧
      (authenticate c st cookie chunks).sent = []) ∧
    ((addOnion hash c st chunks).ok = false ∧ (addOnion hash c st chunks).sent = []) ∧
    (delOnion c st chunks).sent = [] ∧
    ((delOnion c st chunks).ok = true ↔ st.service_id = "") := by
  refine ⟨?_, ?_, ?_, ?_⟩
  · by_cases hmode : c.auth_mode ≠ AuthMode.Cookie
    · simp [authenticate, hstub, hmode]
    · simp [authenticate, hstub, hmode, hfd]
  · simp [addOnion, hstub, hfd]
  · by_cases hid : st.service_id = ""
    · simp [delOnion, hstub, hid]
    · simp [delOnion, hstub, hid, hfd]
  · by_cases hid : st.service_id = ""
    · simp [delOnion, hstub, hid]
    · simp [delOnion, hstub, hid, hfd]

/-- Claim C9, witness: a fresh, never-connected manager in real mode. -/
theorem session_requires_connection_witness :
    (({ enable_stub_mode := false } : Config).enable_stub_mode = false) ∧
    (({} : ManagerState).control_fd < 0) ∧
    (((authenticate { enable_stub_mode := false } {} none []).ok = false ∧
      (authenticate { enable_stub_mode := false } {} none []).sent = []) ∧
    ((addOnion (fun _ => 0) { enable_stub_mode := false } {} []).ok = false ∧
      (addOnion (fun _ => 0) { enable_stub_mode := false } {} []).sent = []) ∧
    (delOnion { enable_stub_mode := false } {} []).sent = [] ∧
    ((delOnion { enable_stub_mode := false } {} []).ok = true ↔
      ({} : ManagerState).service_id = "")) :=
  ⟨rfl, by decide,
    session_requires_connection (fun _ => 0) { enable_stub_mode := false } {} none []
      rfl (by decide)⟩

/-! ## Claim C10 -/

/-- Claim C10 (confirmed): after every `teardownHiddenService` call — stub
or real mode, success or failure — the held service identifier and private
key are empty and the readiness flag is cleared. -/
theorem teardownHiddenService_clears_record (c : Config) (st : ManagerState)
    (chunks : List (List Char)) :
    (teardownHiddenService c st chunks).st.service_id = "" ∧
    (teardownHiddenService c st chunks).st.private_key = "" ∧
    (teardownHiddenService c st chunks).st.ready = false := by
  unfold teardownHiddenService
  split <;> exact ⟨rfl, rfl, rfl⟩

end HiddenServiceManager
